import Mathlib

/-!
Shallow embedding of the Youtube-transcriber-api repository (src/main.py and
src/app.py) for checking the natural-language specification against the code.

Conventions of the embedding:
* Python floats (audio seconds, timestamps, file sizes) are modelled as `ℚ`;
  wall-clock time (`time.time()`) is a `ℚ` parameter threaded explicitly.
* Python ints (request counters, HTTP status codes) are `Nat`.
* The global mutable `usage_stats` dict guarded by `usage_lock` is modelled as
  an explicit `UsageStats` state value passed in and returned; the lock
  serialises concurrent callers, so a sequence of calls is a list fold.
* Exceptions become `Except` values; external effects (yt-dlp download,
  ffmpeg, ffprobe, the HTTP POST to Groq, the caption API) are modelled by an
  environment record holding each call's outcome for the request.
-/

namespace YtTranscriber

/-! ### Groq rate limits (src/main.py lines 69-74) -/

def GROQ_LIMITS_rpm : Nat := 20
def GROQ_LIMITS_rpd : Nat := 2000
/-- audio seconds per hour -/
def GROQ_LIMITS_ash : ℚ := 7200
/-- audio seconds per day -/
def GROQ_LIMITS_asd : ℚ := 28800

/-- per-file limit from Groq, megabytes (src/main.py line 19) -/
def GROQ_MAX_FILE_MB : ℚ := 25

/-! ### Usage state (src/main.py lines 76-81)

`usage_stats` has four entries; the count entries hold a Python int, the
audio entries hold seconds as a float, each with its own reset deadline. -/

structure UsageStats where
  minuteCount : Nat
  minuteReset : ℚ
  dayCount : Nat
  dayReset : ℚ
  hourAudioSeconds : ℚ
  hourAudioReset : ℚ
  dayAudioSeconds : ℚ
  dayAudioReset : ℚ
deriving Repr, DecidableEq

/-- The initial `usage_stats` value built at import time `t0`
(src/main.py lines 76-81). -/
def initial_usage_stats (t0 : ℚ) : UsageStats :=
  { minuteCount := 0, minuteReset := t0 + 60
    dayCount := 0, dayReset := t0 + 86400
    hourAudioSeconds := 0, hourAudioReset := t0 + 3600
    dayAudioSeconds := 0, dayAudioReset := t0 + 86400 }

/-- The four keys of the `usage_stats` dict, in dict iteration order. -/
inductive UsageKey
  | minute
  | day
  | hour_audio
  | day_audio
deriving Repr, DecidableEq

/-- `reset_if_needed(key)` (src/main.py lines 83-92): when the window deadline
has passed, zero the counter of that key and advance the deadline by the
window length (60 for minute, 3600 for hour_audio, 86400 otherwise). -/
def reset_if_needed (now : ℚ) (key : UsageKey) (s : UsageStats) : UsageStats :=
  match key with
  | .minute =>
      if now > s.minuteReset then
        { s with minuteCount := 0, minuteReset := now + 60 }
      else s
  | .day =>
      if now > s.dayReset then
        { s with dayCount := 0, dayReset := now + 86400 }
      else s
  | .hour_audio =>
      if now > s.hourAudioReset then
        { s with hourAudioSeconds := 0, hourAudioReset := now + 3600 }
      else s
  | .day_audio =>
      if now > s.dayAudioReset then
        { s with dayAudioSeconds := 0, dayAudioReset := now + 86400 }
      else s

/-- The `for key in usage_stats.keys(): reset_if_needed(key)` loop at the top
of `check_and_update_limits` (src/main.py lines 97-98), in dict order. -/
def resetAll (now : ℚ) (s : UsageStats) : UsageStats :=
  reset_if_needed now .day_audio
    (reset_if_needed now .hour_audio
      (reset_if_needed now .day
        (reset_if_needed now .minute s)))

/-- The four limit dimensions, named after the `GROQ_LIMITS` keys. -/
inductive Dim
  | rpm
  | rpd
  | ash
  | asd
deriving Repr, DecidableEq

/-- `check_and_update_limits(audio_seconds)` (src/main.py lines 94-111).
Inside the lock: reset expired windows, then check the four dimensions in
order, raising HTTP 429 naming the first violated dimension; only when all
four pass are all four counters incremented.  The returned state is the
value of the global `usage_stats` after the call: on failure the resets have
still been applied (they mutated the dict before the raise). -/
def check_and_update_limits (now : ℚ) (audio_seconds : ℚ) (s : UsageStats) :
    Except Dim Unit × UsageStats :=
  let s1 := resetAll now s
  if s1.minuteCount ≥ GROQ_LIMITS_rpm then (.error .rpm, s1)
  else if s1.dayCount ≥ GROQ_LIMITS_rpd then (.error .rpd, s1)
  else if s1.hourAudioSeconds + audio_seconds > GROQ_LIMITS_ash then (.error .ash, s1)
  else if s1.dayAudioSeconds + audio_seconds > GROQ_LIMITS_asd then (.error .asd, s1)
  else
    (.ok (),
      { s1 with
        minuteCount := s1.minuteCount + 1
        dayCount := s1.dayCount + 1
        hourAudioSeconds := s1.hourAudioSeconds + audio_seconds
        dayAudioSeconds := s1.dayAudioSeconds + audio_seconds })

/-- A serialised sequence of `check_and_update_limits` calls, each given as
`(now, audio_seconds)`.  The lock makes every concurrent interleaving
equivalent to some such sequence. -/
def runCalls : List (ℚ × ℚ) → UsageStats → UsageStats
  | [], s => s
  | c :: rest, s => runCalls rest (check_and_update_limits c.1 c.2 s).2

/-- The quota safety invariant: each counter is within its configured limit,
i.e. the increments committed inside the currently active window of each
dimension sum to at most that dimension's limit. -/
def Inv (s : UsageStats) : Prop :=
  s.minuteCount ≤ GROQ_LIMITS_rpm ∧
  s.dayCount ≤ GROQ_LIMITS_rpd ∧
  s.hourAudioSeconds ≤ GROQ_LIMITS_ash ∧
  s.dayAudioSeconds ≤ GROQ_LIMITS_asd

instance (s : UsageStats) : Decidable (Inv s) := by
  unfold Inv
  infer_instance

/-! ### Time formatting (src/main.py lines 40-41, src/app.py lines 35-36)

`format_time(seconds)` is `str(datetime.timedelta(seconds=int(seconds)))`.
Python's `int()` truncates a float toward zero; `str` of a timedelta prints
`H:MM:SS` (hours unpadded) with a `D day(s), ` prefix when the normalised
day count (floor division by 86400) is nonzero. -/

/-- Python `int()` on a real value: truncation toward zero.  On a rational
`num/den` (with `den > 0`) this is T-division of the numerator by the
denominator. -/
def pyInt (q : ℚ) : Int :=
  Int.tdiv q.num q.den

/-- Zero-pad a Nat to two digits, as the `%02d` fields of timedelta's str. -/
def pad2 (n : Nat) : String :=
  if n < 10 then "0" ++ toString n else toString n

/-- `str(datetime.timedelta(seconds=t))` for integer `t`: normalise into
days (floor) and a remainder in `[0, 86400)`, print `H:MM:SS`, prefixed by
the day count (with pluralisation) when nonzero. -/
def timedeltaStr (t : Int) : String :=
  let days : Int := t / 86400
  let rem : Nat := (t % 86400).toNat
  let hh : Nat := rem / 3600
  let mm : Nat := rem % 3600 / 60
  let ss : Nat := rem % 60
  let core : String := toString hh ++ ":" ++ pad2 mm ++ ":" ++ pad2 ss
  if days = 0 then core
  else
    toString days ++ " day" ++ (if days.natAbs = 1 then "" else "s") ++ ", " ++ core

/-- `format_time` (identical in both source variants). -/
def format_time (seconds : ℚ) : String :=
  timedeltaStr (pyInt seconds)

example : format_time 1 = "0:00:01" := by decide
example : format_time (mkRat 7 2) = "0:00:03" := by decide
example : format_time 86400 = "1 day, 0:00:00" := by decide
example : format_time 3725 = "1:02:05" := by decide

/-! ### Video id extraction (src/main.py lines 43-47, src/app.py lines 44-48)

`re.search(r"(?:v=|\/)([0-9A-Za-z_-]{11}).*", url)`: scan left to right; at
each position try the alternation `v=` then `/`, then capture exactly 11
characters of the class `[0-9A-Za-z_-]`; the trailing `.*` constrains
nothing.  On no match a `ValueError("Invalid YouTube URL")` is raised,
modelled as `none`. -/

/-- Membership in the character class `[0-9A-Za-z_-]`. -/
def isIdChar (c : Char) : Bool :=
  c.isAlphanum || c = '_' || c = '-'

/-- Try to capture `[0-9A-Za-z_-]{11}` at the head of `cs`. -/
def grab11 (cs : List Char) : Option (List Char) :=
  if (cs.take 11).length = 11 ∧ (cs.take 11).all isIdChar then some (cs.take 11)
  else none

/-- Try the pattern `(?:v=|\/)([0-9A-Za-z_-]{11})` anchored at the head:
the alternation first tries `v=`, then `/`; the two cannot both apply at
one position since they need different first characters. -/
def matchHere (cs : List Char) : Option (List Char) :=
  match cs with
  | [] => none
  | c :: rest =>
    if c = 'v' then
      match rest with
      | [] => none
      | c2 :: rest2 => if c2 = '=' then grab11 rest2 else none
    else if c = '/' then grab11 rest
    else none

/-- The property captured by one position of the regex search: the suffix
starts with `v=` or `/` immediately followed by 11 characters of the
class. -/
def hasId11 (t : List Char) : Prop :=
  11 ≤ t.length ∧ (t.take 11).all isIdChar = true

/-- The suffix carries an id token at its head. -/
def idTokenAt (cs : List Char) : Prop :=
  (∃ t, cs = 'v' :: '=' :: t ∧ hasId11 t) ∨
  (∃ t, cs = '/' :: t ∧ hasId11 t)

/-- `re.search`: leftmost match of the pattern, returning capture group 1. -/
def searchId : List Char → Option (List Char)
  | [] => none
  | c :: rest =>
    match matchHere (c :: rest) with
    | some g => some g
    | none => searchId rest

/-- `extract_video_id(url)` (identical in both variants); `none` models the
raised `ValueError`. -/
def extract_video_id (url : String) : Option String :=
  (searchId url.data).map fun g => String.mk g

example : extract_video_id "https://www.youtube.com/watch?v=dQw4w9WgXcQ" =
    some "dQw4w9WgXcQ" := by decide
example : extract_video_id "nothing here" = none := by decide

/-! ### Transcript data -/

/-- Python's `str.strip()`: drop leading and trailing whitespace.  (Defined
on the character list; `Char.isWhitespace` covers the ASCII whitespace that
can occur in transcript text.) -/
def pyStrip (s : String) : String :=
  String.mk
    (((s.data.dropWhile Char.isWhitespace).reverse.dropWhile
      Char.isWhitespace).reverse)

example : pyStrip "  hi " = "hi" := by decide

/-- Decidable equality of `Except` outcomes, for concrete evaluation. -/
instance {ε α : Type} [DecidableEq ε] [DecidableEq α] :
    DecidableEq (Except ε α) := fun x y =>
  match x, y with
  | .ok a, .ok b =>
    if h : a = b then .isTrue (by rw [h]) else .isFalse (by simp [h])
  | .error a, .error b =>
    if h : a = b then .isTrue (by rw [h]) else .isFalse (by simp [h])
  | .ok _, .error _ => .isFalse (by simp)
  | .error _, .ok _ => .isFalse (by simp)

/-- One segment of the primary engine's verbose result (`seg["start"]`,
`seg["end"]`, `seg["text"]`).  The `end` field is named `stop` because `end`
is a Lean keyword. -/
structure GroqSeg where
  start : ℚ
  stop : ℚ
  text : String
deriving Repr, DecidableEq

/-- The primary engine's parsed JSON: full `text` plus `segments`. -/
structure GroqResult where
  text : String
  segments : List GroqSeg
deriving Repr, DecidableEq

/-- One caption entry from `YouTubeTranscriptApi.get_transcript`:
`{text, start, duration}`. -/
structure CaptionEntry where
  text : String
  start : ℚ
  duration : ℚ
deriving Repr, DecidableEq

/-- One segment of the HTTP response (start/end already formatted). -/
structure SegmentOut where
  start : String
  stop : String
  text : String
deriving Repr, DecidableEq

/-- The success response body `{source, transcript, segments}`. -/
structure Response where
  source : String
  transcript : String
  segments : List SegmentOut
deriving Repr, DecidableEq

/-- Normalisation of one primary-engine segment (src/main.py lines 162-169,
src/app.py lines 73-80): format both boundaries, strip the text. -/
def mkGroqSegment (seg : GroqSeg) : SegmentOut :=
  { start := format_time seg.start
    stop := format_time seg.stop
    text := pyStrip seg.text }

/-- Normalisation of one caption entry (src/main.py lines 182-189,
src/app.py lines 93-100, the two are textually identical): `end` is
`start + duration`, both boundaries formatted, text stripped. -/
def mkCaptionSegment (e : CaptionEntry) : SegmentOut :=
  { start := format_time e.start
    stop := format_time (e.start + e.duration)
    text := pyStrip e.text }

/-! ### Caption fallback branch (src/main.py lines 179-197, src/app.py
lines 90-108; identical in both variants) -/

/-- Outcomes of `YouTubeTranscriptApi.get_transcript`, when it raises. -/
inductive CaptionErr
  | disabled
  | notFound
  | transport
deriving Repr, DecidableEq

/-- Why the fallback branch raised. -/
inductive FallbackErr
  | invalidURL
  | captions (e : CaptionErr)
deriving Repr, DecidableEq

/-- The inner `try` of the fallback branch: extract the video id (its
`ValueError` propagates to the inner `except`), fetch captions, and build
the `youtube_captions` response with the joined (unstripped) texts. -/
def captionFallback (url : String)
    (captions : Except CaptionErr (List CaptionEntry)) :
    Except FallbackErr Response :=
  match extract_video_id url with
  | none => .error .invalidURL
  | some _vid =>
    match captions with
    | .error e => .error (.captions e)
    | .ok entries =>
      .ok { source := "youtube_captions"
            transcript := String.intercalate " " (entries.map CaptionEntry.text)
            segments := entries.map mkCaptionSegment }

/-! ### Primary path of src/main.py (lines 139-176) -/

/-- Outcome record for the external calls made while handling one request in
src/main.py.  Each field fixes what the corresponding external service did
for this request. -/
structure Env where
  url : String
  /-- `ydl.download` returned without raising -/
  downloadOk : Bool
  /-- `os.path.exists(video_path)` after the download attempt -/
  videoCreated : Bool
  /-- ffmpeg left an mp3 file on disk -/
  mp3Created : Bool
  /-- ... and that file has nonzero size -/
  mp3NonEmpty : Bool
  /-- `os.path.getsize(mp3_path) / (1024*1024)` -/
  sizeMB : ℚ
  /-- ffprobe stdout parsed as a float; `none` models a parse failure -/
  probeOut : Option ℚ
  /-- HTTP status of the Groq POST; `none` models a raised request
  exception (timeout, transport) -/
  respStatus : Option Nat
  /-- parsed JSON body when the POST returned 200 -/
  respBody : GroqResult
  /-- outcome of the caption API for this video -/
  captions : Except CaptionErr (List CaptionEntry)
  /-- `time.time()` during the quota check -/
  now : ℚ
deriving Repr

/-- `get_audio_duration` (src/main.py lines 57-66): the parsed ffprobe
output, or `0.0` when parsing raises. -/
def get_audio_duration (probeOut : Option ℚ) : ℚ :=
  probeOut.getD 0

/-- Errors raised inside the outer `try` of `transcribe_video`
(src/main.py); all of them are subclasses of `Exception` and are caught by
the `except Exception` that selects the fallback branch. -/
inductive PrimErr
  /-- `ydl.download` raised -/
  | fetch
  /-- `RuntimeError("Download failed")`: no file after download -/
  | missingFile
  /-- `RuntimeError("MP3 conversion failed")` -/
  | transcode
  /-- `HTTPException(413)`: file exceeds the Groq 25MB limit -/
  | tooLarge
  /-- `HTTPException(429)` from `check_and_update_limits` -/
  | quota (d : Dim)
  /-- `requests.post` raised (timeout or transport) -/
  | postRaised
  /-- `RuntimeError("Groq API error: ...")` on a non-200 status -/
  | badStatus (n : Nat)
deriving Repr, DecidableEq

/-- `call_groq_transcription(mp3_path)` (src/main.py lines 114-132),
with the `usage_stats` state threaded explicitly. -/
def call_groq_transcription (env : Env) (s : UsageStats) :
    Except PrimErr GroqResult × UsageStats :=
  if env.sizeMB > GROQ_MAX_FILE_MB then (.error .tooLarge, s)
  else
    let audio_seconds := get_audio_duration env.probeOut
    match check_and_update_limits env.now audio_seconds s with
    | (.error d, s1) => (.error (.quota d), s1)
    | (.ok _, s1) =>
      match env.respStatus with
      | none => (.error .postRaised, s1)
      | some st =>
        if st ≠ 200 then (.error (.badStatus st), s1)
        else (.ok env.respBody, s1)

/-- The outer `try` block of src/main.py `transcribe_video` (lines 144-175):
download, existence check, mp3 conversion, Groq call, and the
`groq_whisper` response on success. -/
def runPrimary (env : Env) (s : UsageStats) :
    Except PrimErr Response × UsageStats :=
  if ¬ env.downloadOk then (.error .fetch, s)
  else if ¬ env.videoCreated then (.error .missingFile, s)
  else if ¬ (env.mp3Created ∧ env.mp3NonEmpty) then (.error .transcode, s)
  else
    match call_groq_transcription env s with
    | (.error e, s1) => (.error e, s1)
    | (.ok result, s1) =>
      (.ok { source := "groq_whisper"
             transcript := result.text
             segments := result.segments.map mkGroqSegment }, s1)

/-- The generic detail string of the final `HTTPException(500)` in
src/main.py line 201. -/
def groqFailMsg : String :=
  "Transcription failed: Groq and YouTube captions unavailable"

/-- The fallback branch of src/main.py (lines 177-201): any fallback
failure collapses to the single 500 detail message. -/
def fallback_result (env : Env) : Except String Response :=
  match captionFallback env.url env.captions with
  | .ok resp => .ok resp
  | .error _ => .error groqFailMsg

/-- The transient artifacts of one request: does each file exist? -/
structure Files where
  video : Bool
  mp3 : Bool
deriving Repr, DecidableEq

/-- Which artifacts exist when the `finally` block runs: the mp3 is only
created once the download succeeded with a file on disk and ffmpeg produced
output. -/
def midFiles (env : Env) : Files :=
  { video := env.videoCreated
    mp3 := env.downloadOk && env.videoCreated && env.mp3Created }

/-- `if os.path.exists(f): os.remove(f)` — a no-op on a missing file. -/
def removeIfExists (present : Bool) : Bool :=
  if present then false else present

/-- The `finally` block of src/main.py (lines 203-206). -/
def cleanup (f : Files) : Files :=
  { video := removeIfExists f.video, mp3 := removeIfExists f.mp3 }

/-- `transcribe_video` of src/main.py (lines 139-206): primary path, on any
`Exception` the fallback branch, on fallback failure the generic 500; the
`finally` cleanup runs on every path.  Returns the HTTP outcome, the final
`usage_stats`, and the artifacts left on disk. -/
def transcribe_video (env : Env) (s : UsageStats) :
    Except String Response × UsageStats × Files :=
  let pr := runPrimary env s
  let result : Except String Response :=
    match pr.1 with
    | .ok resp => .ok resp
    | .error _ => fallback_result env
  (result, pr.2, cleanup (midFiles env))

/-! ### The local-engine variant, src/app.py (lines 50-112)

Same orchestration with the local Whisper model as primary engine.  This
variant has no `finally` block: the only deletion of the video file is the
`os.remove(video_path)` on the success path (line 70), executed after
`model.transcribe` returns and before the segments are computed. -/

/-- Outcome record for the external calls of one src/app.py request. -/
structure AppEnv where
  url : String
  /-- `whisper.load_model` returned without raising -/
  modelLoadOk : Bool
  /-- `ydl.download` returned without raising -/
  downloadOk : Bool
  /-- the download left a video file on disk -/
  videoCreated : Bool
  /-- outcome of `model.transcribe(video_path)`; `.error ()` models any
  raised exception -/
  whisperResult : Except Unit GroqResult
  /-- outcome of the caption API for this video -/
  captions : Except CaptionErr (List CaptionEntry)
deriving Repr

/-- The generic detail string of the final `HTTPException(500)` in
src/app.py line 112. -/
def whisperFailMsg : String :=
  "Transcription failed: Whisper and YouTube captions unavailable"

/-- The `try` block of src/app.py `transcribe_video` (lines 55-86),
returning the outcome together with whether the video file is still on
disk when the block exits.  Note `os.remove(video_path)` raises
`FileNotFoundError` when the file is missing, which lands us in the
`except` branch. -/
def appRunPrimary (env : AppEnv) : Except Unit Response × Bool :=
  if ¬ env.modelLoadOk then (.error (), false)
  else if ¬ env.downloadOk then (.error (), env.videoCreated)
  else
    match env.whisperResult with
    | .error _ => (.error (), env.videoCreated)
    | .ok result =>
      if env.videoCreated then
        (.ok { source := "whisper"
               transcript := result.text
               segments := result.segments.map mkGroqSegment }, false)
      else (.error (), false)

/-- `transcribe_video` of src/app.py (lines 50-112): Whisper primary path,
fallback branch on any exception, generic 500 on fallback failure, and no
`finally` — the second component reports whether the downloaded video file
is still on disk at the terminal outcome. -/
def app_transcribe_video (env : AppEnv) : Except String Response × Bool :=
  match appRunPrimary env with
  | (.ok resp, left) => (.ok resp, left)
  | (.error _, left) =>
    match captionFallback env.url env.captions with
    | .ok resp => (.ok resp, left)
    | .error _ => (.error whisperFailMsg, left)

/-! ### Shape checks for the rendered time strings -/

/-- Does a string have the shape `H:MM:SS` — one or more digits, a colon,
exactly two digits, a colon, exactly two digits, and nothing else? -/
def isHMMSSChars : List Char → Bool
  | [] => false
  | c :: rest =>
    c.isDigit &&
    (match rest.dropWhile Char.isDigit with
     | ':' :: m1 :: m2 :: ':' :: s1 :: s2 :: [] =>
       m1.isDigit && m2.isDigit && s1.isDigit && s2.isDigit
     | _ => false)

def isHMMSS (s : String) : Bool := isHMMSSChars s.data

example : isHMMSS "0:00:03" = true := by decide
example : isHMMSS "23:59:59" = true := by decide
example : isHMMSS "1 day, 0:00:00" = false := by decide

/-- Exactly two digit characters. -/
def isTwoDigitPad (s : String) : Bool :=
  match s.data with
  | [a, b] => a.isDigit && b.isDigit
  | _ => false

/-- A nonempty all-digit string. -/
def isDigitsNE (s : String) : Bool :=
  !s.data.isEmpty && s.data.all Char.isDigit

/-! ### Concrete end-to-end scenario A (spec section 8)

Fetch succeeds, transcode succeeds, the quota admits, and the primary call
returns 200 with `{text: "hello world", segments: [{0,1,"hello"},
{1,2,"world"}]}`. -/

/-- The environment of scenario A for src/main.py, at a fresh usage state. -/
def scenarioA_env : Env :=
  { url := "https://www.youtube.com/watch?v=dQw4w9WgXcQ"
    downloadOk := true, videoCreated := true
    mp3Created := true, mp3NonEmpty := true
    sizeMB := 4, probeOut := some 60, respStatus := some 200
    respBody := ⟨"hello world", [⟨0, 1, "hello"⟩, ⟨1, 2, "world"⟩]⟩
    captions := .error .notFound, now := 0 }

/-- The response src/main.py produces in scenario A. -/
def scenarioA_resp : Response :=
  ⟨"groq_whisper", "hello world",
    [⟨"0:00:00", "0:00:01", "hello"⟩, ⟨"0:00:01", "0:00:02", "world"⟩]⟩

/-- The usage state after scenario A's admitted call. -/
def scenarioA_stats : UsageStats :=
  ⟨1, 60, 1, 86400, 60, 3600, 60, 86400⟩

/-! ## Supporting lemmas -/

/-- Limits are nonnegative, so a zeroed counter satisfies its bound. -/
lemma zero_le_ash : (0 : ℚ) ≤ GROQ_LIMITS_ash := by norm_num [GROQ_LIMITS_ash]

lemma zero_le_asd : (0 : ℚ) ≤ GROQ_LIMITS_asd := by norm_num [GROQ_LIMITS_asd]

/-- The reset loop only ever zeroes the minute counter. -/
lemma resetAll_minuteCount (now : ℚ) (s : UsageStats) :
    (resetAll now s).minuteCount =
      if now > s.minuteReset then 0 else s.minuteCount := by
  dsimp only [resetAll, reset_if_needed]
  split_ifs <;> rfl

lemma resetAll_dayCount (now : ℚ) (s : UsageStats) :
    (resetAll now s).dayCount =
      if now > s.dayReset then 0 else s.dayCount := by
  dsimp only [resetAll, reset_if_needed]
  split_ifs <;> rfl

lemma resetAll_hourAudioSeconds (now : ℚ) (s : UsageStats) :
    (resetAll now s).hourAudioSeconds =
      if now > s.hourAudioReset then 0 else s.hourAudioSeconds := by
  dsimp only [resetAll, reset_if_needed]
  split_ifs <;> rfl

lemma resetAll_dayAudioSeconds (now : ℚ) (s : UsageStats) :
    (resetAll now s).dayAudioSeconds =
      if now > s.dayAudioReset then 0 else s.dayAudioSeconds := by
  dsimp only [resetAll, reset_if_needed]
  split_ifs <;> rfl

/-- Expired-window resets never raise a counter above its bound. -/
lemma Inv_resetAll (now : ℚ) (s : UsageStats) (h : Inv s) :
    Inv (resetAll now s) := by
  obtain ⟨h1, h2, h3, h4⟩ := h
  refine ⟨?_, ?_, ?_, ?_⟩
  · rw [resetAll_minuteCount]; split_ifs
    · exact Nat.zero_le _
    · exact h1
  · rw [resetAll_dayCount]; split_ifs
    · exact Nat.zero_le _
    · exact h2
  · rw [resetAll_hourAudioSeconds]; split_ifs
    · exact zero_le_ash
    · exact h3
  · rw [resetAll_dayAudioSeconds]; split_ifs
    · exact zero_le_asd
    · exact h4

lemma hourAudio_resetAll_le (now : ℚ) (s : UsageStats)
    (h : s.hourAudioSeconds ≤ GROQ_LIMITS_ash) :
    (resetAll now s).hourAudioSeconds ≤ GROQ_LIMITS_ash := by
  rw [resetAll_hourAudioSeconds]
  split_ifs
  · exact zero_le_ash
  · exact h

lemma dayAudio_resetAll_le (now : ℚ) (s : UsageStats)
    (h : s.dayAudioSeconds ≤ GROQ_LIMITS_asd) :
    (resetAll now s).dayAudioSeconds ≤ GROQ_LIMITS_asd := by
  rw [resetAll_dayAudioSeconds]
  split_ifs
  · exact zero_le_asd
  · exact h

/-- One `check_and_update_limits` call preserves the quota invariant,
whether it admits or rejects. -/
lemma Inv_check_and_update (now as : ℚ) (s : UsageStats) (h : Inv s) :
    Inv (check_and_update_limits now as s).2 := by
  have hr := Inv_resetAll now s h
  simp only [check_and_update_limits]
  split_ifs with h1 h2 h3 h4
  · exact hr
  · exact hr
  · exact hr
  · exact hr
  · obtain ⟨r1, r2, r3, r4⟩ := hr
    dsimp only [Inv]
    refine ⟨by omega, by omega, by linarith, by linarith⟩

/-- The invariant holds after any serialised sequence of admit calls. -/
lemma Inv_runCalls (calls : List (ℚ × ℚ)) (s : UsageStats) (h : Inv s) :
    Inv (runCalls calls s) := by
  induction calls generalizing s with
  | nil => exact h
  | cons c rest ih => exact ih _ (Inv_check_and_update c.1 c.2 s h)

/-- The freshly initialised `usage_stats` satisfies the invariant. -/
lemma Inv_initial (t0 : ℚ) : Inv (initial_usage_stats t0) :=
  ⟨Nat.zero_le _, Nat.zero_le _, zero_le_ash, zero_le_asd⟩

/-- An admitted call passed all four checks. -/
lemma check_ok_conditions (now as : ℚ) (s : UsageStats)
    (h : (check_and_update_limits now as s).1 = .ok ()) :
    ¬ (resetAll now s).minuteCount ≥ GROQ_LIMITS_rpm ∧
    ¬ (resetAll now s).dayCount ≥ GROQ_LIMITS_rpd ∧
    ¬ (resetAll now s).hourAudioSeconds + as > GROQ_LIMITS_ash ∧
    ¬ (resetAll now s).dayAudioSeconds + as > GROQ_LIMITS_asd := by
  simp only [check_and_update_limits] at h
  by_cases h1 : (resetAll now s).minuteCount ≥ GROQ_LIMITS_rpm
  · rw [if_pos h1] at h; exact absurd h (by simp)
  rw [if_neg h1] at h
  by_cases h2 : (resetAll now s).dayCount ≥ GROQ_LIMITS_rpd
  · rw [if_pos h2] at h; exact absurd h (by simp)
  rw [if_neg h2] at h
  by_cases h3 : (resetAll now s).hourAudioSeconds + as > GROQ_LIMITS_ash
  · rw [if_pos h3] at h; exact absurd h (by simp)
  rw [if_neg h3] at h
  by_cases h4 : (resetAll now s).dayAudioSeconds + as > GROQ_LIMITS_asd
  · rw [if_pos h4] at h; exact absurd h (by simp)
  exact ⟨h1, h2, h3, h4⟩

/-- On admission, the committed state is the post-reset state with all four
counters incremented. -/
lemma check_ok_commit (now as : ℚ) (s : UsageStats)
    (h : (check_and_update_limits now as s).1 = .ok ()) :
    (check_and_update_limits now as s).2 =
      { resetAll now s with
        minuteCount := (resetAll now s).minuteCount + 1
        dayCount := (resetAll now s).dayCount + 1
        hourAudioSeconds := (resetAll now s).hourAudioSeconds + as
        dayAudioSeconds := (resetAll now s).dayAudioSeconds + as } := by
  obtain ⟨h1, h2, h3, h4⟩ := check_ok_conditions now as s h
  simp only [check_and_update_limits, if_neg h1, if_neg h2, if_neg h3, if_neg h4]

/-- The usage state returned by `call_groq_transcription` is exactly the one
left behind by the quota check: nothing after the check touches it. -/
lemma call_groq_snd (env : Env) (s : UsageStats)
    (hsize : ¬ env.sizeMB > GROQ_MAX_FILE_MB) :
    (call_groq_transcription env s).2 =
      (check_and_update_limits env.now (get_audio_duration env.probeOut) s).2 := by
  simp only [call_groq_transcription, if_neg hsize]
  rcases h : check_and_update_limits env.now (get_audio_duration env.probeOut) s
    with ⟨r, s1⟩
  cases r <;> cases env.respStatus <;> simp_all
  split_ifs <;> rfl

/-- Once the primary path reaches the Groq call, the usage state of the
request is the one produced by that call. -/
lemma runPrimary_snd (env : Env) (s : UsageStats)
    (h1 : env.downloadOk = true) (h2 : env.videoCreated = true)
    (h3 : env.mp3Created = true) (h4 : env.mp3NonEmpty = true) :
    (runPrimary env s).2 = (call_groq_transcription env s).2 := by
  simp only [runPrimary, h1, h2, h3, h4, not_true, and_self, if_false]
  rcases h : call_groq_transcription env s with ⟨r, s1⟩
  cases r <;> simp_all

/-! ## Claim theorems -/

/-- C1: `check_and_update_limits` admits a call only when, for each of the
four dimensions, the current (post-reset) counter plus the increment — 1
for the request-count dimensions, the measured audio seconds for the
audio-time dimensions — stays within the configured limit; consequently,
over any serialised sequence of admit calls starting from the initial
state (the lock serialises concurrent callers), every counter stays within
its limit, i.e. the increments committed within one active window never
sum past the limit. -/
theorem c1_admission_within_limits :
    (∀ now as s, (check_and_update_limits now as s).1 = .ok () →
        (resetAll now s).minuteCount + 1 ≤ GROQ_LIMITS_rpm ∧
        (resetAll now s).dayCount + 1 ≤ GROQ_LIMITS_rpd ∧
        (resetAll now s).hourAudioSeconds + as ≤ GROQ_LIMITS_ash ∧
        (resetAll now s).dayAudioSeconds + as ≤ GROQ_LIMITS_asd) ∧
    (∀ t0 calls, Inv (runCalls calls (initial_usage_stats t0))) := by
  constructor
  · intro now as s h
    obtain ⟨h1, h2, h3, h4⟩ := check_ok_conditions now as s h
    exact ⟨by omega, by omega, by linarith, by linarith⟩
  · intro t0 calls
    exact Inv_runCalls calls _ (Inv_initial t0)

/-- C1 witness: a concrete admitted call at the initial state satisfies the
four bounds, and a concrete call sequence keeps the invariant. -/
theorem c1_admission_within_limits_witness :
    (check_and_update_limits 0 10 (initial_usage_stats 0)).1 = .ok () ∧
    ((resetAll 0 (initial_usage_stats 0)).minuteCount + 1 ≤ GROQ_LIMITS_rpm ∧
      (resetAll 0 (initial_usage_stats 0)).dayCount + 1 ≤ GROQ_LIMITS_rpd ∧
      (resetAll 0 (initial_usage_stats 0)).hourAudioSeconds + 10 ≤ GROQ_LIMITS_ash ∧
      (resetAll 0 (initial_usage_stats 0)).dayAudioSeconds + 10 ≤ GROQ_LIMITS_asd) ∧
    Inv (runCalls [(0, 10), (30, 7200)] (initial_usage_stats 0)) := by
  have hok : (check_and_update_limits 0 10 (initial_usage_stats 0)).1 = .ok () := by
    norm_num [check_and_update_limits, resetAll, reset_if_needed,
      initial_usage_stats, GROQ_LIMITS_rpm, GROQ_LIMITS_rpd, GROQ_LIMITS_ash,
      GROQ_LIMITS_asd]
  exact ⟨hok, c1_admission_within_limits.1 0 10 _ hok,
    c1_admission_within_limits.2 0 [(0, 10), (30, 7200)]⟩

/-- C2: admission is all-or-nothing — the check raises (some dimension is
reported) exactly when some dimension would be exceeded on the post-reset
state, and on a rejected call the returned `usage_stats` is exactly the
post-reset state: no counter was incremented. -/
theorem c2_all_or_nothing :
    ∀ now as s,
      ((∃ d, (check_and_update_limits now as s).1 = .error d) ↔
        GROQ_LIMITS_rpm ≤ (resetAll now s).minuteCount ∨
        GROQ_LIMITS_rpd ≤ (resetAll now s).dayCount ∨
        GROQ_LIMITS_ash < (resetAll now s).hourAudioSeconds + as ∨
        GROQ_LIMITS_asd < (resetAll now s).dayAudioSeconds + as) ∧
      ∀ d, (check_and_update_limits now as s).1 = .error d →
        (check_and_update_limits now as s).2 = resetAll now s := by
  intro now as s
  constructor
  · constructor
    · rintro ⟨d, hd⟩
      by_contra hc
      push_neg at hc
      obtain ⟨n1, n2, n3, n4⟩ := hc
      simp only [check_and_update_limits] at hd
      rw [if_neg (by exact fun hx => absurd hx (not_le.mpr n1)),
          if_neg (by exact fun hx => absurd hx (not_le.mpr n2)),
          if_neg (by exact fun hx => absurd hx (not_lt.mpr n3)),
          if_neg (by exact fun hx => absurd hx (not_lt.mpr n4))] at hd
      exact absurd hd (by simp)
    · intro hv
      simp only [check_and_update_limits]
      split_ifs with h1 h2 h3 h4
      · exact ⟨.rpm, rfl⟩
      · exact ⟨.rpd, rfl⟩
      · exact ⟨.ash, rfl⟩
      · exact ⟨.asd, rfl⟩
      · rcases hv with h | h | h | h
        · exact absurd h h1
        · exact absurd h h2
        · exact absurd h h3
        · exact absurd h h4
  · intro d hd
    simp only [check_and_update_limits] at hd ⊢
    split_ifs at hd ⊢ <;> try rfl

/-- C2 witness: with the minute counter full, a call is rejected on the rpm
dimension and the state it leaves behind is exactly the post-reset state. -/
theorem c2_all_or_nothing_witness :
    (check_and_update_limits 0 5 ⟨20, 100, 7, 100, 30, 100, 40, 100⟩).1 =
      .error .rpm ∧
    (check_and_update_limits 0 5 ⟨20, 100, 7, 100, 30, 100, 40, 100⟩).2 =
      resetAll 0 ⟨20, 100, 7, 100, 30, 100, 40, 100⟩ := by
  have herr : (check_and_update_limits 0 5
      (⟨20, 100, 7, 100, 30, 100, 40, 100⟩ : UsageStats)).1 = .error .rpm := by
    norm_num [check_and_update_limits, resetAll, reset_if_needed,
      GROQ_LIMITS_rpm]
  exact ⟨herr, ((c2_all_or_nothing 0 5 _).2 .rpm herr)⟩

/-- C8: once a request is admitted, its quota increments stick: whatever the
Groq POST does afterwards (timeout, non-2xx, or success), the final
`usage_stats` of the request is exactly the committed state, whose four
counters carry the admission's increments over the post-reset state. -/
theorem c8_no_quota_refund :
    ∀ env s, env.downloadOk = true → env.videoCreated = true →
      env.mp3Created = true → env.mp3NonEmpty = true →
      ¬ env.sizeMB > GROQ_MAX_FILE_MB →
      (check_and_update_limits env.now (get_audio_duration env.probeOut) s).1 =
        .ok () →
      (transcribe_video env s).2.1 =
        (check_and_update_limits env.now (get_audio_duration env.probeOut) s).2 ∧
      (transcribe_video env s).2.1.minuteCount =
        (resetAll env.now s).minuteCount + 1 ∧
      (transcribe_video env s).2.1.dayCount =
        (resetAll env.now s).dayCount + 1 ∧
      (transcribe_video env s).2.1.hourAudioSeconds =
        (resetAll env.now s).hourAudioSeconds + get_audio_duration env.probeOut ∧
      (transcribe_video env s).2.1.dayAudioSeconds =
        (resetAll env.now s).dayAudioSeconds + get_audio_duration env.probeOut := by
  intro env s h1 h2 h3 h4 hsize hok
  have hstate : (transcribe_video env s).2.1 =
      (check_and_update_limits env.now (get_audio_duration env.probeOut) s).2 := by
    have : (transcribe_video env s).2.1 = (runPrimary env s).2 := rfl
    rw [this, runPrimary_snd env s h1 h2 h3 h4, call_groq_snd env s hsize]
  have hcommit := check_ok_commit env.now (get_audio_duration env.probeOut) s hok
  rw [hstate, hcommit]
  exact ⟨rfl, rfl, rfl, rfl, rfl⟩

/-- C8 witness: a concrete admitted request whose Groq POST returns 500
still ends with all four counters incremented. -/
theorem c8_no_quota_refund_witness :
    (transcribe_video
        { url := "https://youtu.be/dQw4w9WgXcQ", downloadOk := true
          videoCreated := true, mp3Created := true, mp3NonEmpty := true
          sizeMB := 4, probeOut := some 90, respStatus := some 500
          respBody := ⟨"", []⟩, captions := .error .notFound, now := 0 }
        (initial_usage_stats 0)).2.1.minuteCount = 1 := by
  have h := c8_no_quota_refund
    { url := "https://youtu.be/dQw4w9WgXcQ", downloadOk := true
      videoCreated := true, mp3Created := true, mp3NonEmpty := true
      sizeMB := 4, probeOut := some 90, respStatus := some 500
      respBody := ⟨"", []⟩, captions := .error .notFound, now := 0 }
    (initial_usage_stats 0) rfl rfl rfl rfl
    (by norm_num [GROQ_MAX_FILE_MB])
    (by norm_num [check_and_update_limits, resetAll, reset_if_needed,
      get_audio_duration, initial_usage_stats, GROQ_LIMITS_rpm,
      GROQ_LIMITS_rpd, GROQ_LIMITS_ash, GROQ_LIMITS_asd])
  rw [h.2.1]
  norm_num [resetAll, reset_if_needed, initial_usage_stats]

/-- C10: a failed duration probe yields `0.0`, and a request charged zero
audio seconds can only be rejected on the request-count dimensions — the
audio-time checks pass whenever those counters are within their limits
(in particular when completely full) — and on success the two audio
counters gain nothing. -/
theorem c10_zero_duration_admission :
    get_audio_duration none = 0 ∧
    ∀ now s, s.hourAudioSeconds ≤ GROQ_LIMITS_ash →
      s.dayAudioSeconds ≤ GROQ_LIMITS_asd →
      (∀ d, (check_and_update_limits now (get_audio_duration none) s).1 =
          .error d → d = .rpm ∨ d = .rpd) ∧
      ((check_and_update_limits now (get_audio_duration none) s).1 = .ok () →
        (check_and_update_limits now (get_audio_duration none) s).2.hourAudioSeconds =
          (resetAll now s).hourAudioSeconds ∧
        (check_and_update_limits now (get_audio_duration none) s).2.dayAudioSeconds =
          (resetAll now s).dayAudioSeconds) := by
  refine ⟨rfl, ?_⟩
  intro now s hh hd
  have h3 : ¬ (resetAll now s).hourAudioSeconds + get_audio_duration none >
      GROQ_LIMITS_ash := by
    have := hourAudio_resetAll_le now s hh
    simp only [get_audio_duration, Option.getD_none, add_zero]
    linarith
  have h4 : ¬ (resetAll now s).dayAudioSeconds + get_audio_duration none >
      GROQ_LIMITS_asd := by
    have := dayAudio_resetAll_le now s hd
    simp only [get_audio_duration, Option.getD_none, add_zero]
    linarith
  constructor
  · intro d hderr
    simp only [check_and_update_limits, if_neg h3, if_neg h4] at hderr
    split_ifs at hderr with hc1 hc2 <;> cases d <;> simp_all
  · intro hok
    rw [check_ok_commit now (get_audio_duration none) s hok]
    simp [get_audio_duration]

/-- C3: every exception on the primary path of src/main.py — download
failure, missing file, failed conversion, the 413 oversize, a 429 quota
rejection, a raised POST, a non-200 status — is caught by the
`except Exception` and routes to the fallback branch, so the outcome is
exactly the fallback branch's outcome whatever the primary error was; the
only error the caller can ever see is the single generic 500 detail, and
it occurs exactly when the primary failed and the fallback branch also
raised — with `InvalidURL` (no extractable id) treated like every other
fallback failure. -/
theorem c3_fallback_policy :
    ∀ env s,
      (∀ e s1, runPrimary env s = (.error e, s1) →
        (transcribe_video env s).1 = fallback_result env) ∧
      (∀ f, captionFallback env.url env.captions = .error f →
        fallback_result env = .error groqFailMsg) ∧
      (∀ msg, (transcribe_video env s).1 = .error msg →
        msg = groqFailMsg ∧
        (∃ e s1, runPrimary env s = (.error e, s1)) ∧
        (∃ f, captionFallback env.url env.captions = .error f)) := by
  intro env s
  refine ⟨?_, ?_, ?_⟩
  · intro e s1 h
    simp only [transcribe_video, h]
  · intro f h
    simp only [fallback_result, h]
  · intro msg h
    simp only [transcribe_video] at h
    rcases hp : runPrimary env s with ⟨r, s1⟩
    rw [hp] at h
    cases r with
    | ok resp => exact absurd h (by simp)
    | error e =>
      simp only at h
      rcases hf : captionFallback env.url env.captions with f | resp
      · rw [fallback_result, hf] at h
        simp only [Except.error.injEq] at h
        exact ⟨h.symm, ⟨e, s1, rfl⟩, ⟨f, rfl⟩⟩
      · rw [fallback_result, hf] at h
        exact absurd h (by simp)

/-- C3 witness: a request whose download raises and whose URL has no
extractable video id ends in the single generic 500 with both branches
having failed. -/
theorem c3_fallback_policy_witness :
    groqFailMsg = groqFailMsg ∧
    (∃ e s1, runPrimary
      { url := "abc", downloadOk := false, videoCreated := false
        mp3Created := false, mp3NonEmpty := false, sizeMB := 0
        probeOut := none, respStatus := none, respBody := ⟨"", []⟩
        captions := .ok [], now := 0 } (initial_usage_stats 0) =
        (.error e, s1)) ∧
    (∃ f, captionFallback "abc" (.ok []) = .error f) :=
  (c3_fallback_policy
    { url := "abc", downloadOk := false, videoCreated := false
      mp3Created := false, mp3NonEmpty := false, sizeMB := 0
      probeOut := none, respStatus := none, respBody := ⟨"", []⟩
      captions := .ok [], now := 0 } (initial_usage_stats 0)).2.2
    groqFailMsg (by decide)

/-- Missing-file deletion is a no-op and any present file is removed. -/
lemma removeIfExists_eq_false (b : Bool) : removeIfExists b = false := by
  cases b <;> rfl

/-- C4, evaluated at the failing input: the claim asks that both source
variants delete the transient media files on every exit path.  src/main.py
does (its `finally` always empties the artifact set), but src/app.py
deletes the video only on the Whisper success path: a request whose
download succeeds and whose Whisper transcription then raises ends with a
fallback-success response while the downloaded video file is still on
disk. -/
theorem c4_cleanup_every_path :
    (∀ env s, (transcribe_video env s).2.2 = ⟨false, false⟩) ∧
    app_transcribe_video
      { url := "https://youtu.be/dQw4w9WgXcQ", modelLoadOk := true
        downloadOk := true, videoCreated := true
        whisperResult := .error (), captions := .ok [] } =
      (.ok ⟨"youtube_captions", "", []⟩, true) := by
  constructor
  · intro env s
    show cleanup (midFiles env) = _
    simp [cleanup, removeIfExists_eq_false]
  · decide

/-- C5: the fallback normalisation (textually identical in src/main.py and
src/app.py, both via `captionFallback`) emits, for every caption entry
`{text, start, duration}`, the segment whose end is `start + duration`,
with both boundaries formatted and the text stripped; on the concrete
entry `{text := "hi", start := 1, duration := 5/2}` this gives
`{start := formatted 1, end := formatted 7/2, text := "hi"}`, that is
`{"0:00:01", "0:00:03", "hi"}`. -/
theorem c5_fallback_segment_timing :
    (∀ e : CaptionEntry, mkCaptionSegment e =
      { start := format_time e.start
        stop := format_time (e.start + e.duration)
        text := pyStrip e.text }) ∧
    (∀ url entries resp, captionFallback url (.ok entries) = .ok resp →
      resp.segments = entries.map mkCaptionSegment) ∧
    mkCaptionSegment ⟨"hi", 1, mkRat 5 2⟩ =
      { start := format_time 1, stop := format_time (mkRat 7 2)
        text := "hi" } ∧
    format_time 1 = "0:00:01" ∧ format_time (mkRat 7 2) = "0:00:03" := by
  have hq : (1 : ℚ) + mkRat 5 2 = mkRat 7 2 := by
    norm_num [Rat.mkRat_eq_divInt, Rat.divInt_eq_div]
  refine ⟨fun e => rfl, ?_, ?_, by decide, by decide⟩
  · intro url entries resp h
    unfold captionFallback at h
    rcases hid : extract_video_id url with _ | vid <;> rw [hid] at h
    · exact absurd h (by simp)
    · simp only [Except.ok.injEq] at h
      rw [← h]
  · show ({ start := format_time 1, stop := format_time (1 + mkRat 5 2)
            text := pyStrip "hi" } : SegmentOut) = _
    rw [hq]
    have hs : pyStrip "hi" = "hi" := by decide
    rw [hs]

/-- C5 witness: a concrete fallback response carries exactly the reconciled
segments. -/
theorem c5_fallback_segment_timing_witness :
    captionFallback "https://youtu.be/dQw4w9WgXcQ"
      (.ok [⟨"hi", 1, mkRat 5 2⟩]) =
      .ok ⟨"youtube_captions", "hi", [⟨"0:00:01", "0:00:03", "hi"⟩]⟩ ∧
    (⟨"youtube_captions", "hi",
        [⟨"0:00:01", "0:00:03", "hi"⟩]⟩ : Response).segments =
      [(⟨"hi", 1, mkRat 5 2⟩ : CaptionEntry)].map mkCaptionSegment := by
  have hq : (1 : ℚ) + mkRat 5 2 = mkRat 7 2 := by
    norm_num [Rat.mkRat_eq_divInt, Rat.divInt_eq_div]
  have hseg : mkCaptionSegment ⟨"hi", 1, mkRat 5 2⟩ =
      ⟨"0:00:01", "0:00:03", "hi"⟩ := by
    show ({ start := format_time 1, stop := format_time (1 + mkRat 5 2)
            text := pyStrip "hi" } : SegmentOut) = _
    rw [hq]
    have h1 : format_time 1 = "0:00:01" := by decide
    have h2 : format_time (mkRat 7 2) = "0:00:03" := by decide
    have h3 : pyStrip "hi" = "hi" := by decide
    rw [h1, h2, h3]
  have hcf : captionFallback "https://youtu.be/dQw4w9WgXcQ"
      (.ok [⟨"hi", 1, mkRat 5 2⟩]) =
      .ok ⟨"youtube_captions", "hi", [⟨"0:00:01", "0:00:03", "hi"⟩]⟩ := by
    have hid : extract_video_id "https://youtu.be/dQw4w9WgXcQ" =
        some "dQw4w9WgXcQ" := by decide
    simp only [captionFallback, hid, List.map, hseg]
    rfl
  exact ⟨hcf, c5_fallback_segment_timing.2.1
    "https://youtu.be/dQw4w9WgXcQ" [⟨"hi", 1, mkRat 5 2⟩] _ hcf⟩

/-- C10 witness: with both audio counters exactly full, a zero-charge call
is admitted and the audio counters do not move. -/
theorem c10_zero_duration_admission_witness :
    (check_and_update_limits 0 (get_audio_duration none)
        ⟨0, 100, 0, 100, 7200, 100, 28800, 100⟩).1 = .ok () ∧
    (check_and_update_limits 0 (get_audio_duration none)
        ⟨0, 100, 0, 100, 7200, 100, 28800, 100⟩).2.hourAudioSeconds =
      (resetAll 0 ⟨0, 100, 0, 100, 7200, 100, 28800, 100⟩).hourAudioSeconds := by
  have hok : (check_and_update_limits 0 (get_audio_duration none)
      (⟨0, 100, 0, 100, 7200, 100, 28800, 100⟩ : UsageStats)).1 = .ok () := by
    norm_num [check_and_update_limits, resetAll, reset_if_needed,
      get_audio_duration, GROQ_LIMITS_rpm, GROQ_LIMITS_rpd, GROQ_LIMITS_ash,
      GROQ_LIMITS_asd]
  refine ⟨hok, ?_⟩
  exact (((c10_zero_duration_admission.2 0 _ (by norm_num [GROQ_LIMITS_ash])
    (by norm_num [GROQ_LIMITS_asd])).2) hok).1

/-- A successful primary path in src/main.py always tags the response
`groq_whisper`. -/
lemma runPrimary_ok_source (env : Env) (s : UsageStats) (resp : Response)
    (s1 : UsageStats) (h : runPrimary env s = (.ok resp, s1)) :
    resp.source = "groq_whisper" := by
  unfold runPrimary at h
  split_ifs at h <;> try exact absurd h (by simp)
  rcases hc : call_groq_transcription env s with ⟨r, s2⟩
  rw [hc] at h
  cases r with
  | error e => exact absurd h (by simp)
  | ok result =>
    simp only [Prod.mk.injEq, Except.ok.injEq] at h
    rw [← h.1]

/-- A successful primary path in src/app.py always tags the response
`whisper`. -/
lemma appRunPrimary_ok_source (env : AppEnv) (resp : Response) (left : Bool)
    (h : appRunPrimary env = (.ok resp, left)) :
    resp.source = "whisper" := by
  unfold appRunPrimary at h
  rcases hw : env.whisperResult with u | result <;> rw [hw] at h <;>
    split_ifs at h <;> simp only [Prod.mk.injEq, Except.ok.injEq,
      reduceCtorEq, false_and, and_false] at h
  rw [← h.1]

/-- A successful fallback always tags the response `youtube_captions`. -/
lemma captionFallback_ok_source (url : String)
    (caps : Except CaptionErr (List CaptionEntry)) (resp : Response)
    (h : captionFallback url caps = .ok resp) :
    resp.source = "youtube_captions" := by
  unfold captionFallback at h
  rcases hid : extract_video_id url with _ | vid <;> rw [hid] at h
  · exact absurd h (by simp)
  · cases caps with
    | error e => exact absurd h (by simp)
    | ok entries =>
      simp only [Except.ok.injEq] at h
      rw [← h]

/-- Scenario A's Groq call: 4 MB, 60 s, admitted on a fresh state, 200. -/
lemma scenarioA_call :
    call_groq_transcription scenarioA_env (initial_usage_stats 0) =
      (.ok ⟨"hello world", [⟨0, 1, "hello"⟩, ⟨1, 2, "world"⟩]⟩,
        scenarioA_stats) := by
  norm_num [call_groq_transcription, check_and_update_limits, resetAll,
    reset_if_needed, initial_usage_stats, get_audio_duration, scenarioA_env,
    scenarioA_stats, GROQ_MAX_FILE_MB, GROQ_LIMITS_rpm, GROQ_LIMITS_rpd,
    GROQ_LIMITS_ash, GROQ_LIMITS_asd]

/-- Scenario A's primary path succeeds with the normalised response. -/
lemma scenarioA_runPrimary :
    runPrimary scenarioA_env (initial_usage_stats 0) =
      (.ok scenarioA_resp, scenarioA_stats) := by
  have hm1 : mkGroqSegment ⟨0, 1, "hello"⟩ = ⟨"0:00:00", "0:00:01", "hello"⟩ :=
    by decide
  have hm2 : mkGroqSegment ⟨1, 2, "world"⟩ = ⟨"0:00:01", "0:00:02", "world"⟩ :=
    by decide
  unfold runPrimary
  rw [scenarioA_call]
  simp [scenarioA_env, scenarioA_resp, hm1, hm2]

/-- C6 counterexample: in scenario A the code's response carries
`source = "groq_whisper"`, not the claimed `"primary"`. -/
theorem c6_source_counterexample :
    (transcribe_video scenarioA_env (initial_usage_stats 0)).1 =
      .ok scenarioA_resp ∧
    scenarioA_resp.source = "groq_whisper" ∧
    "groq_whisper" ≠ "primary" := by
  refine ⟨?_, rfl, by decide⟩
  simp only [transcribe_video, scenarioA_runPrimary]

/-- C6 (amended): a completed request's `source` tag is `"groq_whisper"`
(src/main.py) resp. `"whisper"` (src/app.py) when the primary engine
succeeded — these are the code's names for the spec's `primary` — and
`"youtube_captions"` (the code's name for `fallback`) when the caption
path succeeded, with the response passed through unchanged. -/
theorem c6_source_tags :
    (∀ env s resp s1, runPrimary env s = (.ok resp, s1) →
      (transcribe_video env s).1 = .ok resp ∧ resp.source = "groq_whisper") ∧
    (∀ env s e s1 resp, runPrimary env s = (.error e, s1) →
      captionFallback env.url env.captions = .ok resp →
      (transcribe_video env s).1 = .ok resp ∧
        resp.source = "youtube_captions") ∧
    (∀ env resp left, appRunPrimary env = (.ok resp, left) →
      app_transcribe_video env = (.ok resp, left) ∧
        resp.source = "whisper") ∧
    (∀ env u left resp, appRunPrimary env = (.error u, left) →
      captionFallback env.url env.captions = .ok resp →
      app_transcribe_video env = (.ok resp, left) ∧
        resp.source = "youtube_captions") := by
  refine ⟨?_, ?_, ?_, ?_⟩
  · intro env s resp s1 h
    refine ⟨?_, runPrimary_ok_source env s resp s1 h⟩
    simp only [transcribe_video, h]
  · intro env s e s1 resp hp hf
    refine ⟨?_, captionFallback_ok_source env.url env.captions resp hf⟩
    simp only [transcribe_video, hp, fallback_result, hf]
  · intro env resp left h
    refine ⟨?_, appRunPrimary_ok_source env resp left h⟩
    simp only [app_transcribe_video, h]
  · intro env u left resp hp hf
    refine ⟨?_, captionFallback_ok_source env.url env.captions resp hf⟩
    simp only [app_transcribe_video, hp, hf]

/-- C6 witness: scenario A through the amended theorem. -/
theorem c6_source_tags_witness :
    (transcribe_video scenarioA_env (initial_usage_stats 0)).1 =
      .ok scenarioA_resp ∧
    scenarioA_resp.source = "groq_whisper" :=
  c6_source_tags.1 scenarioA_env (initial_usage_stats 0) scenarioA_resp
    scenarioA_stats scenarioA_runPrimary

/-- The `%02d` rendering of any value below 60 is two digit characters. -/
lemma pad2_two_digits : ∀ m : Nat, m < 60 → isTwoDigitPad (pad2 m) = true := by
  decide

/-- The unpadded hour rendering of any value below 24 is a nonempty digit
string. -/
lemma toString_digits_lt24 : ∀ n : Nat, n < 24 → isDigitsNE (toString n) = true := by
  decide

lemma isTwoDigitPad_shape (s : String) (h : isTwoDigitPad s = true) :
    ∃ a b, s.data = [a, b] ∧ a.isDigit = true ∧ b.isDigit = true := by
  unfold isTwoDigitPad at h
  rcases hd : s.data with _ | ⟨a, rest⟩
  · rw [hd] at h; simp at h
  · rcases rest with _ | ⟨b, rest2⟩
    · rw [hd] at h; simp at h
    · rcases rest2 with _ | ⟨c, rest3⟩
      · rw [hd] at h
        simp only [Bool.and_eq_true] at h
        exact ⟨a, b, rfl, h.1, h.2⟩
      · rw [hd] at h; simp at h

lemma isDigitsNE_shape (s : String) (h : isDigitsNE s = true) :
    s.data ≠ [] ∧ s.data.all Char.isDigit = true := by
  unfold isDigitsNE at h
  simp only [Bool.and_eq_true] at h
  constructor
  · intro hnil
    rw [hnil] at h
    simp at h
  · exact h.2

lemma dropWhileDigits_append (l1 l2 : List Char)
    (h : l1.all Char.isDigit = true) :
    (l1 ++ l2).dropWhile Char.isDigit = l2.dropWhile Char.isDigit := by
  induction l1 with
  | nil => rfl
  | cons c cs ih =>
    simp only [List.all_cons, Bool.and_eq_true] at h
    simp only [List.cons_append, List.dropWhile_cons, h.1, if_true]
    exact ih h.2

/-- Gluing digits, a colon, two digits, a colon and two digits gives an
`H:MM:SS`-shaped string. -/
lemma isHMMSSChars_concat (hh mm ss : String)
    (h1 : isDigitsNE hh = true) (h2 : isTwoDigitPad mm = true)
    (h3 : isTwoDigitPad ss = true) :
    isHMMSS (hh ++ ":" ++ mm ++ ":" ++ ss) = true := by
  obtain ⟨hne, hdig⟩ := isDigitsNE_shape hh h1
  obtain ⟨a, b, hab, ha, hb⟩ := isTwoDigitPad_shape mm h2
  obtain ⟨c, d, hcd, hc, hd⟩ := isTwoDigitPad_shape ss h3
  unfold isHMMSS
  have hcolon : (":" : String).data = [':'] := rfl
  simp only [String.data_append, hcolon, hab, hcd]
  rcases hx : hh.data with _ | ⟨c0, cs⟩
  · exact absurd hx hne
  · rw [hx] at hdig
    simp only [List.all_cons, Bool.and_eq_true] at hdig
    simp only [List.cons_append, List.append_assoc, List.nil_append,
      List.singleton_append, isHMMSSChars, hdig.1, Bool.true_and]
    rw [dropWhileDigits_append cs _ hdig.2]
    have hns : (':').isDigit = false := rfl
    simp only [List.dropWhile_cons, hns, Bool.false_eq_true, if_false,
      ha, hb, hc, hd, Bool.and_self]

/-- Below one day, the timedelta rendering is `H:MM:SS`. -/
lemma timedeltaStr_hmmss (t : Int) (h0 : 0 ≤ t) (hlt : t < 86400) :
    isHMMSS (timedeltaStr t) = true := by
  simp only [timedeltaStr]
  rw [Int.ediv_eq_zero_of_lt h0 hlt, Int.emod_eq_of_lt h0 hlt]
  simp only [if_pos rfl]
  exact isHMMSSChars_concat _ _ _
    (toString_digits_lt24 _ (by omega))
    (pad2_two_digits _ (by omega))
    (pad2_two_digits _ (by omega))

/-- Python `int()` agrees with the floor on nonnegative values. -/
lemma pyInt_eq_floor (q : ℚ) (h : 0 ≤ q) : pyInt q = ⌊q⌋ := by
  unfold pyInt
  rw [Rat.floor_def]
  exact Int.tdiv_eq_ediv (Rat.num_nonneg.mpr h) (Int.natCast_nonneg q.den)

/-- C7 counterexample: at one day's worth of seconds — a nonnegative
value — the formatter's output is not in `H:MM:SS` form: Python's
timedelta prints a day component. -/
theorem c7_hmmss_counterexample :
    (0 : ℚ) ≤ 86400 ∧ format_time 86400 = "1 day, 0:00:00" ∧
    isHMMSS (format_time 86400) = false := by
  decide

/-- C7 (amended): for nonnegative seconds the formatter truncates (it
renders exactly the floor of the value, e.g. `7/2` as `0:00:03`), and for
values below one day — above which Python's timedelta prepends a day
component — the rendering is in `H:MM:SS` form; the one formatter is
applied to both `start` and `end` of every segment on the primary and the
fallback path alike. -/
theorem c7_format_truncated_hmmss :
    (∀ q : ℚ, 0 ≤ q → format_time q = timedeltaStr ⌊q⌋) ∧
    (∀ q : ℚ, 0 ≤ q → q < 86400 → isHMMSS (format_time q) = true) ∧
    format_time (mkRat 7 2) = "0:00:03" ∧
    (∀ seg : GroqSeg, mkGroqSegment seg =
      ⟨format_time seg.start, format_time seg.stop, pyStrip seg.text⟩) ∧
    (∀ e : CaptionEntry, mkCaptionSegment e =
      ⟨format_time e.start, format_time (e.start + e.duration),
        pyStrip e.text⟩) := by
  refine ⟨?_, ?_, by decide, fun seg => rfl, fun e => rfl⟩
  · intro q hq
    unfold format_time
    rw [pyInt_eq_floor q hq]
  · intro q hq hlt
    unfold format_time
    rw [pyInt_eq_floor q hq]
    exact timedeltaStr_hmmss ⌊q⌋ (Int.floor_nonneg.mpr hq)
      (Int.floor_lt.mpr (by exact_mod_cast hlt))

/-- C7 witness: the amended theorem applied at `7/2`. -/
theorem c7_format_truncated_hmmss_witness :
    (0 : ℚ) ≤ mkRat 7 2 ∧ mkRat 7 2 < 86400 ∧
    isHMMSS (format_time (mkRat 7 2)) = true ∧
    format_time (mkRat 7 2) = timedeltaStr ⌊(mkRat 7 2 : ℚ)⌋ :=
  ⟨by decide, by decide,
    c7_format_truncated_hmmss.2.1 (mkRat 7 2) (by decide) (by decide),
    c7_format_truncated_hmmss.1 (mkRat 7 2) (by decide)⟩

/-- Map preserves definedness of an optional value. -/
lemma isSome_map {α β : Type} (f : α → β) (o : Option α) :
    (o.map f).isSome = o.isSome := by
  cases o <;> rfl

/-- Capturing 11 class characters succeeds exactly on a `hasId11` suffix. -/
lemma grab11_isSome_iff (cs : List Char) :
    (grab11 cs).isSome = true ↔ hasId11 cs := by
  unfold grab11 hasId11
  split_ifs with h
  · simp only [Option.isSome_some, true_iff]
    obtain ⟨hl, ha⟩ := h
    rw [List.length_take] at hl
    exact ⟨by omega, ha⟩
  · simp only [Option.isSome_none, Bool.false_eq_true, false_iff]
    rintro ⟨hl, ha⟩
    exact h ⟨by rw [List.length_take]; omega, ha⟩

/-- A successful capture is 11 characters of the class. -/
lemma grab11_some_shape (cs g : List Char) (h : grab11 cs = some g) :
    g.length = 11 ∧ g.all isIdChar = true := by
  unfold grab11 at h
  split_ifs at h with hc
  · obtain ⟨hl, ha⟩ := hc
    injection h with h2
    rw [← h2]
    exact ⟨hl, ha⟩

/-- One anchored attempt succeeds exactly on an id token. -/
lemma matchHere_isSome_iff (cs : List Char) :
    (matchHere cs).isSome = true ↔ idTokenAt cs := by
  rcases cs with _ | ⟨c, rest⟩
  · simp [matchHere, idTokenAt]
  · by_cases hv : c = 'v'
    · subst hv
      rcases rest with _ | ⟨c2, rest2⟩
      · simp [matchHere, idTokenAt]
      · by_cases he : c2 = '='
        · subst he
          simp [matchHere, grab11_isSome_iff, idTokenAt]
        · simp [matchHere, he, idTokenAt]
    · by_cases hs : c = '/'
      · subst hs
        simp [matchHere, grab11_isSome_iff, idTokenAt]
      · simp [matchHere, hv, hs, idTokenAt]

/-- An anchored capture is 11 characters of the class. -/
lemma matchHere_some_shape (cs g : List Char) (h : matchHere cs = some g) :
    g.length = 11 ∧ g.all isIdChar = true := by
  rcases cs with _ | ⟨c, rest⟩
  · simp [matchHere] at h
  · by_cases hv : c = 'v'
    · subst hv
      rcases rest with _ | ⟨c2, rest2⟩
      · simp [matchHere] at h
      · by_cases he : c2 = '='
        · subst he
          simp only [matchHere, reduceIte] at h
          exact grab11_some_shape rest2 g h
        · simp [matchHere, he] at h
    · by_cases hs : c = '/'
      · subst hs
        simp only [matchHere, reduceIte] at h
        exact grab11_some_shape rest g h
      · simp [matchHere, hv, hs] at h

/-- The left-to-right scan succeeds exactly when some suffix carries an id
token. -/
lemma searchId_isSome_iff (cs : List Char) :
    (searchId cs).isSome = true ↔ ∃ i, idTokenAt (cs.drop i) := by
  induction cs with
  | nil =>
    simp only [searchId, Option.isSome_none, Bool.false_eq_true, false_iff,
      not_exists]
    intro i
    simp [List.drop_nil, idTokenAt]
  | cons c rest ih =>
    unfold searchId
    rcases hm : matchHere (c :: rest) with _ | g
    · simp only
      rw [ih]
      constructor
      · rintro ⟨i, hi⟩
        exact ⟨i + 1, by simpa using hi⟩
      · rintro ⟨i, hi⟩
        cases i with
        | zero =>
          rw [List.drop_zero, ← matchHere_isSome_iff, hm] at hi
          simp at hi
        | succ i => exact ⟨i, by simpa using hi⟩
    · simp only [Option.isSome_some, true_iff]
      refine ⟨0, ?_⟩
      rw [List.drop_zero, ← matchHere_isSome_iff, hm]
      rfl

/-- The scan only ever returns an 11-character class token. -/
lemma searchId_some_shape (cs g : List Char) (h : searchId cs = some g) :
    g.length = 11 ∧ g.all isIdChar = true := by
  induction cs with
  | nil => simp [searchId] at h
  | cons c rest ih =>
    unfold searchId at h
    rcases hm : matchHere (c :: rest) with _ | g2 <;> rw [hm] at h
    · exact ih h
    · injection h with h2
      rw [← h2]
      exact matchHere_some_shape (c :: rest) g2 hm

/-- C9: `extract_video_id` succeeds exactly when the URL contains `v=` or
`/` immediately followed by 11 characters of `[0-9A-Za-z_-]` — a purely
syntactic test, independent of host — and any returned identifier is
exactly 11 characters of that class; otherwise the invalid-URL error is
raised. -/
theorem c9_extract_video_id_syntactic :
    ∀ url : String,
      ((extract_video_id url).isSome = true ↔
        ∃ i, idTokenAt (url.data.drop i)) ∧
      (∀ v, extract_video_id url = some v →
        v.length = 11 ∧ v.data.all isIdChar = true) := by
  intro url
  constructor
  · unfold extract_video_id
    rw [isSome_map]
    exact searchId_isSome_iff url.data
  · intro v hv
    unfold extract_video_id at hv
    rcases hs : searchId url.data with _ | g <;> rw [hs] at hv
    · simp at hv
    · injection hv with h2
      obtain ⟨hl, ha⟩ := searchId_some_shape url.data g hs
      rw [← h2]
      exact ⟨hl, ha⟩

/-- C9 witness: a watch URL yields its 11-character id, and a URL on a
different host with an 11-character path token also yields an id. -/
theorem c9_extract_video_id_syntactic_witness :
    ("dQw4w9WgXcQ" : String).length = 11 ∧
    ("dQw4w9WgXcQ" : String).data.all isIdChar = true ∧
    extract_video_id "https://example.com/abcdefghijk" =
      some "abcdefghijk" := by
  refine ⟨?_, ?_, by decide⟩ <;>
    · have h := (c9_extract_video_id_syntactic
        "https://www.youtube.com/watch?v=dQw4w9WgXcQ").2 "dQw4w9WgXcQ"
        (by decide)
      first
        | exact h.1
        | exact h.2

end YtTranscriber
